import Mathlib

/-!
Verification development for the remote-tool query/export core
(`src-tauri/src/query/mod.rs`, `src-tauri/src/export/mod.rs`).

The Rust code is shallowly embedded: pure computations are translated into
executable Lean functions; the effectful remote pipeline is modelled as a
function of an explicit environment record (the SSH execution contract,
file transfer, and local decompression results are inputs), returning both
the outcome and the trace of remote operations issued.  External library
behaviour (Rust `str::parse`, `serde_json`, `chrono` formatting, JSON text
parsing) is modelled where a claim depends on it and passed as a parameter
where it does not.
-/

namespace RemoteTool

/-- Model of `serde_json::Value`.  Numbers are split into the `i64` and `f64`
representations serde_json distinguishes; `f64` payloads are modelled as the
exact rational value of the decimal literal (IEEE-754 rounding is
abstracted away — no claim here depends on rounded float values). -/
inductive Jv where
  | null
  | bool (b : Bool)
  | int (n : Int)
  | float (q : Rat)
  | str (s : String)
  | arr (xs : List Jv)
  | obj (kvs : List (String × Jv))

/-- Model of `serde_json::Value::is_null`. -/
def Jv.isNull : Jv → Bool
  | .null => true
  | _ => false

/-- Model of `Value::as_str`. -/
def Jv.asStr : Jv → Option String
  | .str s => some s
  | _ => none

/-- An object / `HashMap<String, Value>` is modelled as an association list
with unique keys maintained by `insertKV`. -/
abbrev Obj := List (String × Jv)

/-- Key lookup in an object (`map.get(k)` / `HashMap::get`). -/
def lookupKV : Obj → String → Option Jv
  | [], _ => none
  | p :: rest, k => if p.1 == k then some p.2 else lookupKV rest k

/-- Map/`HashMap` insert: replace the value when the key is present,
otherwise append the binding. -/
def insertKV : Obj → String → Jv → Obj
  | [], k, v => [(k, v)]
  | p :: rest, k, v => if p.1 == k then (k, v) :: rest else p :: insertKV rest k v

/-- Keys of an object (`row.keys()`). -/
def keysOf (o : Obj) : List String := o.map (fun p => p.1)

/-- Generic association-list lookup, modelling `HashMap::get`. -/
def lookupA {α : Type} : List (String × α) → String → Option α
  | [], _ => none
  | p :: rest, k => if p.1 == k then some p.2 else lookupA rest k

/- ---------- String helpers modelling Rust std behaviour ---------- -/

/-- ASCII lower-casing of one character; models `str::to_lowercase` on the
ASCII range (the only range the substring probes of the code use). -/
def asciiLower (c : Char) : Char :=
  if 'A' ≤ c ∧ c ≤ 'Z' then Char.ofNat (c.toNat + 32) else c

/-- ASCII upper-casing of one character; models `str::to_uppercase` on the
ASCII range. -/
def asciiUpper (c : Char) : Char :=
  if 'a' ≤ c ∧ c ≤ 'z' then Char.ofNat (c.toNat - 32) else c

/-- Model of `str::to_lowercase` (ASCII fragment). -/
def toLowerStr (s : String) : String := (s.toList.map asciiLower).asString

/-- Model of `str::to_uppercase` (ASCII fragment). -/
def toUpperStr (s : String) : String := (s.toList.map asciiUpper).asString

/-- Does `hay` contain `needle` as a substring (`str::contains`)? -/
def listContainsSub (needle : List Char) : List Char → Bool
  | [] => needle.isEmpty
  | c :: rest => needle.isPrefixOf (c :: rest) || listContainsSub needle rest

/-- Model of `hay.contains(needle)` for strings. -/
def containsSub (hay needle : String) : Bool :=
  listContainsSub needle.toList hay.toList

/-- Rust `char::is_whitespace` restricted to the ASCII whitespace
characters that can occur in command output. -/
def isRustWs (c : Char) : Bool :=
  c = ' ' || c = '\t' || c = '\n' || c = '\r' || c.toNat = 11 || c.toNat = 12

/-- Model of `str::trim`: removes leading and trailing whitespace. -/
def rustTrim (s : String) : String :=
  (((s.toList.dropWhile isRustWs).reverse.dropWhile isRustWs).reverse).asString

/- ---------- Rust numeric parsing (`str::parse::<i64>` / `::<f64>`) ---------- -/

/-- Numeric value of a digit string. -/
def digitsToNat (ds : List Char) : Nat :=
  ds.foldl (fun a c => a * 10 + (c.toNat - 48)) 0

/-- Parses a non-empty all-digit character list. -/
def parseAllDigits : List Char → Option Nat
  | [] => none
  | cs => if cs.all Char.isDigit then some (digitsToNat cs) else none

/-- Model of `str::parse::<i64>`: optional sign, one or more ASCII digits,
value within the `i64` range. -/
def parseI64 (s : String) : Option Int :=
  match s.toList with
  | [] => none
  | '+' :: rest =>
    (parseAllDigits rest).bind (fun n =>
      if n ≤ 9223372036854775807 then some (n : Int) else none)
  | '-' :: rest =>
    (parseAllDigits rest).bind (fun n =>
      if n ≤ 9223372036854775808 then some (-(n : Int)) else none)
  | cs =>
    (parseAllDigits cs).bind (fun n =>
      if n ≤ 9223372036854775807 then some (n : Int) else none)

/-- Result of `str::parse::<f64>`: a finite value (modelled exactly as a
rational) or a non-finite one (`inf` / `infinity` / `nan`). -/
inductive F64Val where
  | finite (q : Rat)
  | nonfinite
  deriving DecidableEq

/-- Negation of a parsed `f64` (sign handling; NaN/inf keep the marker). -/
def F64Val.negate : F64Val → F64Val
  | .finite q => .finite (-q)
  | .nonfinite => .nonfinite

/-- Exponent digits with optional sign (`Exp ::= [eE] Sign? Count`). -/
def parseExpPart : List Char → Option Int
  | [] => none
  | '+' :: rest => (parseAllDigits rest).map (fun n => (n : Int))
  | '-' :: rest => (parseAllDigits rest).map (fun n => -(n : Int))
  | cs => (parseAllDigits cs).map (fun n => (n : Int))

/-- The exponent marker `e`/`E` followed by the signed count. -/
def parseExpTail : List Char → Option Int
  | 'e' :: rest => parseExpPart rest
  | 'E' :: rest => parseExpPart rest
  | _ => none

/-- Exact value of the decimal literal `intDigits . fracDigits e e`. -/
def decimalVal (intDigits fracDigits : List Char) (e : Int) : Rat :=
  ((digitsToNat (intDigits ++ fracDigits) : Rat) / (10 : Rat) ^ fracDigits.length)
    * (10 : Rat) ^ e

/-- The `Number` production of the `f64` grammar:
digits, an optional dot with optional fraction digits and an optional
exponent; or a dot, fraction digits and an optional exponent. -/
def parseF64Number (cs : List Char) : Option Rat :=
  let s1 := cs.span Char.isDigit
  let d1 := s1.1
  match s1.2 with
  | [] => if d1.isEmpty then none else some (decimalVal d1 [] 0)
  | '.' :: r2 =>
    let s2 := r2.span Char.isDigit
    let d2 := s2.1
    if d1.isEmpty && d2.isEmpty then none
    else
      match s2.2 with
      | [] => some (decimalVal d1 d2 0)
      | r3 => (parseExpTail r3).map (decimalVal d1 d2)
  | rest =>
    if d1.isEmpty then none else (parseExpTail rest).map (decimalVal d1 [])

/-- Unsigned part of the `f64` grammar: the case-insensitive words
`inf`, `infinity`, `nan`, or a `Number`. -/
def parseF64Core (cs : List Char) : Option F64Val :=
  let low := cs.map asciiLower
  if low == "inf".toList || low == "infinity".toList || low == "nan".toList then
    some .nonfinite
  else
    (parseF64Number cs).map .finite

/-- Model of `str::parse::<f64>` (value of finite literals taken exactly;
overflow of huge finite literals to infinity is abstracted away — no claim
depends on it). -/
def parseF64 (s : String) : Option F64Val :=
  match s.toList with
  | [] => none
  | '+' :: rest => parseF64Core rest
  | '-' :: rest => (parseF64Core rest).map F64Val.negate
  | cs => parseF64Core cs

/-- Field type inference from `execute_sql_query`
(`src/query/mod.rs:793-811`): an empty field is `Null`; otherwise try
`parse::<i64>`, then `parse::<f64>`, else keep the string.  A non-finite
`f64` makes `serde_json::Number::from_f64` return `None`, and the code
falls back to `serde_json::Number::from(0)`, i.e. integer `0`. -/
def inferValue (field : String) : Jv :=
  if field = "" then .null
  else
    match parseI64 field with
    | some n => .int n
    | none =>
      match parseF64 field with
      | some (.finite q) => .float q
      | some .nonfinite => .int 0
      | none => .str field

/- ---------- Query data model (src/query/mod.rs) ---------- -/

/-- Structure `QueryParams` (src/query/mod.rs:12-19). -/
structure QueryParams where
  db_path : String
  start_time : Int
  end_time : Int
  query_type : String

/-- Structure `QueryResult` (src/query/mod.rs:21-27). -/
structure QueryResult where
  columns : List String
  rows : List Jv
  total_rows : Nat

/-- The heredoc-wrapped interpreter invocation
(interpreter, then the quoted heredoc tag on the same line, then the
script body, then the closing tag line)
(src/query/mod.rs:706, 716), kept structurally. -/
structure ScriptCmd where
  interpreter : String
  heredocTag : String
  script : String

/-- One remote operation issued through the SSH execution contract. -/
inductive RemoteOp where
  | runScript (cmd : ScriptCmd)
  | runCommand (cmd : String)
  | downloadFile (remotePath localPath : String)

/-- The remote delete command `format!("rm -f \"{}\"", path)`
(src/query/mod.rs:755). -/
def rmfCommand (path : String) : String := "rm -f \"" ++ path ++ "\""

/-- Environment record abstracting the external collaborators of one
`execute_sql_query` run: the SSH execution contract (`execute_command`,
`download_file`), the local temp file, the local `fs::metadata` probe, the
`serde_json` parse of a structured stderr payload, and the local
gzip-decompress + CSV-parse of the downloaded bytes. -/
structure SshEnv where
  execCmd : ScriptCmd → Except String (Int × String × String)
  download : String → String → Except String Unit
  localTempPath : String
  metadataLen : String → Except String Nat
  parseStderrJson : String → Option (List (String × String))
  decodeCsv : Except String (List String × List (List String))

/-- The interpreter-fallback trigger
(`exit_status != 0 && stderr.to_lowercase().contains("command not found")`,
src/query/mod.rs:714). -/
def isCmdNotFound (stderr : String) : Bool :=
  containsSub (toLowerStr stderr) "command not found"

/-- The remote-runner step of `execute_sql_query` (src/query/mod.rs:706-722):
run the script with `python3`; if that exits non-zero and stderr reports
"command not found", retry once with `python` and the same script body.
Returns the final execution result and the operations issued.
(`export_wide_table_direct` and `export_demand_results_direct` repeat the
identical pattern at src/query/mod.rs:240-256 and 497-513.) -/
def runScriptWithFallback (env : SshEnv) (tag script : String) :
    Except String (Int × String × String) × List RemoteOp :=
  let cmd1 : ScriptCmd := ⟨"python3", tag, script⟩
  match env.execCmd cmd1 with
  | .error e => (.error ("执行查询命令失败: " ++ e), [.runScript cmd1])
  | .ok (status, out, err) =>
    if status != 0 && isCmdNotFound err then
      let cmd2 : ScriptCmd := ⟨"python", tag, script⟩
      match env.execCmd cmd2 with
      | .error e => (.error ("执行查询命令失败: " ++ e), [.runScript cmd1, .runScript cmd2])
      | .ok r2 => (.ok r2, [.runScript cmd1, .runScript cmd2])
    else
      (.ok (status, out, err), [.runScript cmd1])

/-- Stderr handling on the non-zero-exit path (src/query/mod.rs:727-731):
try to parse stderr as a JSON error payload and take its `error` entry,
falling back to the raw stderr text. -/
def scriptErrorMsg (env : SshEnv) (stderr : String) : String :=
  match env.parseStderrJson stderr with
  | some kvs => (lookupA kvs "error").getD stderr
  | none => stderr

/-- One decoded CSV row (src/query/mod.rs:788-813): fields are inserted in
header order under `headers[i]` (missing header gives `""`), with
`inferValue` type inference. -/
def rowOf (headers record : List String) : Jv :=
  .obj (record.enum.foldl
    (fun acc p => insertKV acc (headers.getD p.1 "") (inferValue p.2)) [])

/-- CSV decode into typed rows plus the column list, which is exactly the
header order (src/query/mod.rs:780-814). -/
def decodeRows (headers : List String) (records : List (List String)) :
    List Jv × List String :=
  (records.map (rowOf headers), headers)

/-- Function `execute_sql_query` (src/query/mod.rs:611-823), as a function of the
environment plus the generated heredoc tag and script body (both derived
from fresh UUIDs / the inputs upstream).  Local temp-file creation is
abstracted as succeeding.  Returns the outcome together with the trace of
remote operations issued. -/
def execute_sql_query (env : SshEnv) (tag script : String) :
    Except String (List Jv × List String) × List RemoteOp :=
  match runScriptWithFallback env tag script with
  | (.error e, tr) => (.error e, tr)
  | (.ok (status, out, err), tr) =>
    if status != 0 then
      (.error ("SQL查询失败: " ++ scriptErrorMsg env err), tr)
    else
      let remoteTempFile := rustTrim out
      let tr := tr ++ [RemoteOp.downloadFile remoteTempFile env.localTempPath]
      match env.download remoteTempFile env.localTempPath with
      | .error e => (.error ("下载结果文件失败: " ++ e), tr)
      | .ok _ =>
        match env.metadataLen env.localTempPath with
        | .error e => (.error ("获取文件信息失败: " ++ e), tr)
        | .ok _ =>
          let tr := tr ++ [RemoteOp.runCommand (rmfCommand remoteTempFile)]
          match env.decodeCsv with
          | .error e => (.error e, tr)
          | .ok (headers, records) => (.ok (decodeRows headers records), tr)

/-- The SQL string generated for a wide-table query
(src/query/mod.rs:830-836): one direct statement over `data_wide` with the
second-resolution bounds converted to milliseconds. -/
def wide_table_sql (params : QueryParams) : String :=
  "SELECT * FROM data_wide WHERE local_timestamp >= " ++ toString (params.start_time * 1000)
    ++ " AND local_timestamp <= " ++ toString (params.end_time * 1000)
    ++ " ORDER BY local_timestamp ASC"

/-- Function `execute_wide_table_query` (src/query/mod.rs:826-858), parameterized by
the SQL sub-query executor (abstracting `execute_sql_query` applied to the
current environment). -/
def execute_wide_table_query
    (sqlExec : String → Except String (List Jv × List String))
    (params : QueryParams) : Except String QueryResult :=
  match sqlExec (wide_table_sql params) with
  | .error e => .error e
  | .ok (results, columns) =>
    if results.isEmpty then
      .ok ⟨[], [], 0⟩
    else
      .ok ⟨columns, results, results.length⟩

/-- The rejection message of `execute_query` (src/query/mod.rs:71). -/
def unsupportedQueryMsg (qt : String) : String :=
  "不支持的查询类型: " ++ qt ++ "，仅支持 wide_table"

/-- Function `execute_query` (src/query/mod.rs:52-72): the facade dispatches only
`wide_table`; every other query type is rejected. -/
def execute_query
    (sqlExec : String → Except String (List Jv × List String))
    (params : QueryParams) : Except String QueryResult :=
  if params.query_type = "wide_table" then
    execute_wide_table_query sqlExec params
  else
    .error (unsupportedQueryMsg params.query_type)

/-- The SQL statements a call to `execute_query` issues (read off the
control flow of src/query/mod.rs:52-72 and 826-839): the wide-table path
issues exactly its one direct statement, the rejection path issues none. -/
def execute_query_sqls (params : QueryParams) : List String :=
  if params.query_type = "wide_table" then [wide_table_sql params] else []

/- ---------- Export module (src/export/mod.rs) ---------- -/

/-- Model of `Value::get(key)`: key lookup on objects, `None` on anything else. -/
def Jv.get (v : Jv) (k : String) : Option Jv :=
  match v with
  | .obj o => lookupKV o k
  | _ => none

/-- Model of `Value::as_array`. -/
def Jv.asArr : Jv → Option (List Jv)
  | .arr xs => some xs
  | _ => none

/-- Model of `Value::as_i64`: only integer-representation numbers. -/
def Jv.asInt : Jv → Option Int
  | .int n => some n
  | _ => none

/-- Structure `ExportConfig` (src/export/mod.rs:11-18); the two `HashMap`s are
modelled as association lists with unique keys. -/
structure ExportConfig where
  main_table_fields : List String
  extract_from_payload : List (String × List String)
  field_name_mapping : List (String × String)

/-- Function `default_config` (src/export/mod.rs:24-38). -/
def default_config : ExportConfig :=
  ⟨["id", "device_sn", "device_type", "timestamp", "local_timestamp",
    "activePower", "reactivePower"], [], []⟩

/-- Device type of a row (src/export/mod.rs:131-134): the `device_type`
entry as a string, upper-cased, defaulting to `"default"`. -/
def deviceTypeOf (o : Obj) : String :=
  (((lookupKV o "device_type").bind Jv.asStr).map toUpperStr).getD "default"

/-- The payload object of the `payload_json` entry of a row
(src/export/mod.rs:147-164): a non-empty JSON-object string is parsed
(`serde_json::from_str`, supplied as `parseJson`), a non-empty object is
taken as is, everything else yields none. -/
def payloadObjOf (parseJson : String → Option Obj) (pj : Jv) : Option Obj :=
  match pj with
  | .str s => if s = "" then none else parseJson s
  | .obj kvs => if kvs.isEmpty then none else some kvs
  | _ => none

/-- The extraction field list for a device type (src/export/mod.rs:169-172):
exact match first, then the `default` entry, else the empty list. -/
def extractListFor (config : ExportConfig) (dt : String) : List String :=
  ((lookupA config.extract_from_payload dt).orElse
    (fun _ => lookupA config.extract_from_payload "default")).getD []

/-- The configured output-name mapping, identity when unmapped
(src/export/mod.rs:182-184). -/
def mappedName (fieldMapping : List (String × String)) (fk : String) : String :=
  (lookupA fieldMapping fk).getD fk

/-- The per-field extraction loop (src/export/mod.rs:177-188): listed fields
present and non-null in the payload are inserted under their mapped output
name (identity when unmapped); null values are skipped. -/
def extractFields (payload : Obj) (fieldMapping : List (String × String))
    (fieldsToExtract : List String) (acc : Obj) : Obj :=
  fieldsToExtract.foldl (fun acc fk =>
    match lookupKV payload fk with
    | some v =>
      if v.isNull then acc
      else insertKV acc (mappedName fieldMapping fk) v
    | none => acc) acc

/-- The main-table part of a processed row (src/export/mod.rs:137-141):
each configured main field present on the row is kept. -/
def mainRowOf (mtf : List String) (o : Obj) : Obj :=
  mtf.foldl (fun acc f =>
    match lookupKV o f with
    | some v => insertKV acc f v
    | none => acc) []

/-- Processing of one row inside `filter_and_extract_fields`
(src/export/mod.rs:128-195). -/
def processRow (parseJson : String → Option Obj) (config : ExportConfig)
    (o : Obj) : Obj :=
  let dt := deviceTypeOf o
  let mainRow := mainRowOf config.main_table_fields o
  match lookupKV o "payload_json" with
  | none => mainRow
  | some pj =>
    if pj.isNull then mainRow
    else
      match payloadObjOf parseJson pj with
      | none => mainRow
      | some payload =>
        let fieldsToExtract := extractListFor config dt
        if fieldsToExtract.isEmpty then mainRow
        else extractFields payload config.field_name_mapping fieldsToExtract mainRow

/-- Function `filter_and_extract_fields` (src/export/mod.rs:116-199); non-object rows
are skipped. -/
def filter_and_extract_fields (parseJson : String → Option Obj)
    (data : List Jv) (config : ExportConfig) : List Obj :=
  if data.isEmpty then []
  else
    data.filterMap (fun row =>
      match row with
      | .obj o => some (processRow parseJson config o)
      | _ => none)

/-- Function `add_formatted_timestamps` (src/export/mod.rs:202-220); the `chrono`
date rendering is abstracted as the parameter `fmtTs ts isMillis`. -/
def add_formatted_timestamps (fmtTs : Int → Bool → String)
    (data : List Obj) : List Obj :=
  data.map (fun row =>
    let row :=
      match (lookupKV row "timestamp").bind Jv.asInt with
      | some ts => insertKV row "timestamp" (.str (fmtTs ts false))
      | none => row
    match (lookupKV row "local_timestamp").bind Jv.asInt with
    | some ts => insertKV row "local_timestamp" (.str (fmtTs ts true))
    | none => row)

/-- The priority columns of `reorder_columns` (src/export/mod.rs:228-234). -/
def priority_columns : List String :=
  ["id", "device_sn", "device_type", "timestamp", "local_timestamp"]

/-- Function `reorder_columns` (src/export/mod.rs:223-255). -/
def reorder_columns (data : List Obj) : List Obj :=
  if data.isEmpty then data
  else
    data.map (fun row =>
      let nr := priority_columns.foldl (fun acc col =>
        match lookupKV row col with
        | some v => insertKV acc col v
        | none => acc) []
      row.foldl (fun acc kv =>
        if priority_columns.contains kv.1 then acc else insertKV acc kv.1 kv.2) nr)

/-- Function `prepare_for_export` (src/export/mod.rs:258-267). -/
def prepare_for_export (parseJson : String → Option Obj)
    (fmtTs : Int → Bool → String) (data : List Jv)
    (config : ExportConfig) : List Obj :=
  reorder_columns (add_formatted_timestamps fmtTs
    (filter_and_extract_fields parseJson data config))

/-- Boolean string order used to model `Vec::<String>::sort`
(byte-lexicographic, which agrees with the character order). -/
def strLeB (a b : String) : Bool := decide (a ≤ b)

/-- Function `prepare_wide_table_for_export` (src/export/mod.rs:270-318). -/
def prepare_wide_table_for_export (fmtTs : Int → Bool → String)
    (data : List Jv) : List Obj :=
  if data.isEmpty then []
  else
    let result := data.filterMap (fun row =>
      match row with
      | .obj o =>
        some (match (lookupKV o "local_timestamp").bind Jv.asInt with
          | some ts => insertKV o "local_timestamp" (.str (fmtTs ts true))
          | none => o)
      | _ => none)
    result.map (fun row =>
      let nr : Obj :=
        match lookupKV row "local_timestamp" with
        | some v => insertKV [] "local_timestamp" v
        | none => []
      let otherKeys :=
        ((keysOf row).filter (fun k => k != "local_timestamp")).mergeSort strLeB
      otherKeys.foldl (fun acc k =>
        match lookupKV row k with
        | some v => insertKV acc k v
        | none => acc) nr)

/-- The distinct keys of a `HashSet<String>` turned into a sorted `Vec`
(collection order is arbitrary, sorting makes the result canonical). -/
def sortedDistinct (l : List String) : List String :=
  l.dedup.mergeSort strLeB

/-- The wide-table header computation of `export_to_csv`
(src/export/mod.rs:364-380): union of all row keys, sorted, then
`local_timestamp` moved to the front when present. -/
def wide_export_fieldnames (processed : List Obj) : List String :=
  let all := sortedDistinct (processed.flatMap keysOf)
  if all.contains "local_timestamp" then
    "local_timestamp" :: all.erase "local_timestamp"
  else all

/-- The plain-query header computation of `export_to_csv`
(src/export/mod.rs:381-408): configured main fields that occur, in config
order, then the remaining fields sorted. -/
def plain_export_fieldnames (config : ExportConfig) (processed : List Obj) :
    List String :=
  let all := (processed.flatMap keysOf).dedup
  let mainPresent := config.main_table_fields.filter (fun f => all.contains f)
  let extFields := (all.filter (fun f => !config.main_table_fields.contains f)).mergeSort strLeB
  mainPresent ++ extFields

/-- Result of the `export_to_csv` decision logic: delegate to the CSV-file
path, fail with a message, or write the given header and rows. -/
inductive ExportAction where
  | fromCsvFile (csvPath : String)
  | failure (msg : String)
  | writeCsv (fieldnames : List String) (rows : List Obj)

/-- Function `export_to_csv` (src/export/mod.rs:321-443) up to the point where the
outgoing file is written.  `fileExists` abstracts `Path::exists`, `config`
the cached `load_config()` result, `parseJson` and `fmtTs` as above. -/
def export_to_csv (fileExists : String → Bool)
    (parseJson : String → Option Obj) (fmtTs : Int → Bool → String)
    (config : ExportConfig) (data : Jv) (query_type : Option String) :
    ExportAction :=
  let fallback : ExportAction :=
    match (data.get "rows").bind Jv.asArr with
    | none => .failure "Invalid data format"
    | some rows =>
      if rows.isEmpty then .failure "No data to export"
      else
        let processed :=
          if query_type = some "wide_table" then
            prepare_wide_table_for_export fmtTs rows
          else
            prepare_for_export parseJson fmtTs rows config
        if processed.isEmpty then .failure "No data to export after processing"
        else
          let fieldnames :=
            if query_type = some "wide_table" then
              wide_export_fieldnames processed
            else
              plain_export_fieldnames config processed
          .writeCsv fieldnames processed
  match (data.get "csvFilePath").bind Jv.asStr with
  | some p => if fileExists p then .fromCsvFile p else fallback
  | none => fallback

/- ---------- Helper lemmas ---------- -/

theorem lookupKV_nil (c : String) : lookupKV [] c = none := rfl

theorem lookupKV_insertKV (o : Obj) (k : String) (v : Jv) (c : String) :
    lookupKV (insertKV o k v) c = if k == c then some v else lookupKV o c := by
  induction o with
  | nil =>
    by_cases h : (k == c) = true <;> simp [insertKV, lookupKV, h]
  | cons p rest ih =>
    by_cases hp : (p.1 == k) = true
    · have hk : p.1 = k := by simpa using hp
      by_cases hkc : (k == c) = true
      · simp [insertKV, lookupKV, hp, hkc]
      · simp [insertKV, lookupKV, hp, hkc, hk]
    · by_cases hpc : (p.1 == c) = true
      · have hkc : (k == c) = false := by
          have hc : p.1 = c := by simpa using hpc
          have : ¬ k = c := fun h => (by simpa using hp : ¬ p.1 = k) (by rw [hc, h])
          simpa using this
        simp [insertKV, lookupKV, hp, hpc, hkc]
      · simp [insertKV, lookupKV, hp, hpc, ih]

theorem getLast?_cons_or {α : Type} (a : α) (l : List α) (b : Option α) :
    ((a :: l).getLast?).or b = (l.getLast?).or (some a) := by
  induction l generalizing a with
  | nil => rfl
  | cons c t _ =>
    have hne : (c :: t).getLast? ≠ none := by
      simp [List.getLast?_eq_none_iff]
    cases hu : (c :: t).getLast? with
    | none => exact absurd hu hne
    | some u => simp [List.getLast?_cons_cons, hu]

/-- Last-write-wins description of a left fold of conditional key inserts:
the value found at `c` afterwards is the last write to `c` among the items,
falling back to the accumulator. -/
theorem lookup_foldl_insert {α : Type} (w : α → Option (String × Jv)) (L : List α)
    (acc : Obj) (c : String) :
    lookupKV (L.foldl (fun acc x =>
        match w x with
        | some kv => insertKV acc kv.1 kv.2
        | none => acc) acc) c =
      ((L.filterMap (fun x => (w x).bind
        (fun kv => if kv.1 == c then some kv.2 else none))).getLast?).or (lookupKV acc c) := by
  induction L generalizing acc with
  | nil => simp
  | cons x xs ih =>
    cases hw : w x with
    | none => simp [hw, ih]
    | some kv =>
      by_cases hc : (kv.1 == c) = true
      · simp only [List.foldl_cons, List.filterMap_cons, hw, Option.some_bind, if_pos hc]
        rw [getLast?_cons_or, ih, lookupKV_insertKV, if_pos hc]
      · simp only [List.foldl_cons, List.filterMap_cons, hw, Option.some_bind, if_neg hc]
        rw [ih, lookupKV_insertKV, if_neg hc]

/- ---------- C3 ---------- -/

/-- Claim C3, corrected.  The facade `execute_query` dispatches only the
`wide_table` query type; every other type — `device` and `command`
included — is rejected with the descriptive unsupported-type message, and
on that path no SQL sub-query (hence no remote command of the query
pipeline) is issued. -/
theorem c3_dispatch_only_wide_table
    (sqlExec : String → Except String (List Jv × List String))
    (params : QueryParams) :
    (params.query_type = "wide_table" →
      execute_query sqlExec params = execute_wide_table_query sqlExec params) ∧
    (params.query_type ≠ "wide_table" →
      execute_query sqlExec params = .error (unsupportedQueryMsg params.query_type) ∧
      execute_query_sqls params = []) := by
  constructor
  · intro h
    simp [execute_query, h]
  · intro h
    constructor
    · simp [execute_query, h]
    · simp [execute_query_sqls, h]

/-- Witness for C3 at a concrete rejected query type. -/
theorem c3_dispatch_only_wide_table_witness :
    execute_query (fun _ => .ok ([], [])) ⟨"/data/a.db", 1, 2, "command"⟩ =
      .error "不支持的查询类型: command，仅支持 wide_table" ∧
    execute_query_sqls ⟨"/data/a.db", 1, 2, "command"⟩ = [] := by
  have h := (c3_dispatch_only_wide_table (fun _ => .ok ([], []))
    ⟨"/data/a.db", 1, 2, "command"⟩).2 (by decide)
  exact ⟨h.1, h.2⟩

/-- Counterexample to C3 as stated: a `device` query is not dispatched to a
device query path; `execute_query` rejects it with the unsupported-type
error (src/query/mod.rs:67-71). -/
theorem c3_counterexample :
    execute_query (fun _ => .ok ([], [])) ⟨"/data/a.db", 1, 2, "device"⟩ =
      .error "不支持的查询类型: device，仅支持 wide_table" := rfl

/- ---------- C9 ---------- -/

/-- Claim C9, confirmed.  When the single wide-table SQL sub-query decodes
to zero rows, `execute_query` succeeds with an empty column list and zero
total rows, discarding the decoded header columns `cols`
(src/query/mod.rs:841-848). -/
theorem c9_zero_rows_discard_header
    (sqlExec : String → Except String (List Jv × List String))
    (params : QueryParams) (cols : List String)
    (hqt : params.query_type = "wide_table")
    (hexec : sqlExec (wide_table_sql params) = .ok ([], cols)) :
    execute_query sqlExec params = .ok ⟨[], [], 0⟩ := by
  simp [execute_query, hqt, execute_wide_table_query, hexec]

/-- Witness for C9: zero rows with a non-empty decoded header still yield
the all-empty result. -/
theorem c9_zero_rows_discard_header_witness :
    execute_query (fun _ => .ok ([], ["local_timestamp", "1001_P"]))
      ⟨"/data/a.db", 1, 2, "wide_table"⟩ = .ok ⟨[], [], 0⟩ :=
  c9_zero_rows_discard_header _ _ ["local_timestamp", "1001_P"] rfl rfl

/- ---------- C2 ---------- -/

/-- Claim C2, corrected.  A `wide_table` request issues exactly one SQL
statement — the directly generated `SELECT * FROM data_wide ...` — and the
decoded rows of that single sub-query are returned as they are (no second
sub-query, no merge). -/
theorem c2_wide_table_single_direct_sql (params : QueryParams)
    (hqt : params.query_type = "wide_table") :
    execute_query_sqls params = [wide_table_sql params] ∧
    (∀ sqlExec, execute_query sqlExec params = execute_wide_table_query sqlExec params) ∧
    (∀ sqlExec res cols, res ≠ [] → sqlExec (wide_table_sql params) = .ok (res, cols) →
      execute_query sqlExec params = .ok ⟨cols, res, res.length⟩) := by
  refine ⟨by simp [execute_query_sqls, hqt], fun sqlExec => by simp [execute_query, hqt],
    fun sqlExec res cols hne hexec => ?_⟩
  simp [execute_query, hqt, execute_wide_table_query, hexec,
    List.isEmpty_iff, hne]

/-- Witness for C2 at a concrete request and sub-query result. -/
theorem c2_wide_table_single_direct_sql_witness :
    execute_query_sqls ⟨"/data/a.db", 10, 20, "wide_table"⟩ =
      ["SELECT * FROM data_wide WHERE local_timestamp >= 10000 AND local_timestamp <= 20000 ORDER BY local_timestamp ASC"] ∧
    execute_query (fun _ => .ok ([Jv.obj [("local_timestamp", Jv.int 10000)]], ["local_timestamp"]))
      ⟨"/data/a.db", 10, 20, "wide_table"⟩ =
      .ok ⟨["local_timestamp"], [Jv.obj [("local_timestamp", Jv.int 10000)]], 1⟩ := by
  have h := c2_wide_table_single_direct_sql ⟨"/data/a.db", 10, 20, "wide_table"⟩ rfl
  refine ⟨by rw [h.1]; rfl, h.2.2 _ _ _ (by simp) rfl⟩

/-- Counterexample to C2 as stated: the wide-table request issues one
statement, not two device/command sub-queries, and that statement is a
directly generated SQL string over `data_wide`. -/
theorem c2_counterexample :
    (execute_query_sqls ⟨"/data/a.db", 10, 20, "wide_table"⟩).length = 1 ∧
    execute_query_sqls ⟨"/data/a.db", 10, 20, "wide_table"⟩ =
      ["SELECT * FROM data_wide WHERE local_timestamp >= 10000 AND local_timestamp <= 20000 ORDER BY local_timestamp ASC"] :=
  ⟨rfl, rfl⟩

/- ---------- C10 ---------- -/

/-- Claim C10, confirmed.  When no usable pre-existing CSV file path is
supplied (the `csvFilePath` entry is absent, or names a file that does not
exist) and the supplied row list is empty, `export_to_csv` fails with
"No data to export" (src/export/mod.rs:327-345). -/
theorem c10_empty_rows_fail (fileExists : String → Bool)
    (parseJson : String → Option Obj) (fmtTs : Int → Bool → String)
    (config : ExportConfig) (data : Jv) (qt : Option String)
    (hcsv : ∀ p, (data.get "csvFilePath").bind Jv.asStr = some p → fileExists p = false)
    (hrows : (data.get "rows").bind Jv.asArr = some []) :
    export_to_csv fileExists parseJson fmtTs config data qt =
      .failure "No data to export" := by
  unfold export_to_csv
  cases hc : (data.get "csvFilePath").bind Jv.asStr with
  | none => simp [hrows]
  | some p => simp [hrows, hcsv p hc]

/-- Witness for C10: an empty `rows` array with no CSV file path. -/
theorem c10_empty_rows_fail_witness :
    export_to_csv (fun _ => false) (fun _ => none) (fun _ _ => "") default_config
      (.obj [("rows", .arr [])]) (some "wide_table") = .failure "No data to export" :=
  c10_empty_rows_fail _ _ _ _ _ _ (fun _ h => Option.noConfusion h) rfl

/- ---------- C8 ---------- -/

/-- Claim C8, confirmed.  The runner retries exactly once, with the
alternate interpreter `python` and the same heredoc tag and script body,
precisely when the primary `python3` run exits non-zero with a stderr
containing "command not found" (lower-cased); otherwise it does not retry,
and in every case at most two interpreter runs are issued
(src/query/mod.rs:706-722). -/
theorem c8_interpreter_fallback (env : SshEnv) (tag script : String) :
    (∀ st out err, env.execCmd ⟨"python3", tag, script⟩ = .ok (st, out, err) →
      (st != 0 && isCmdNotFound err) = true →
      (runScriptWithFallback env tag script).2 =
        [.runScript ⟨"python3", tag, script⟩, .runScript ⟨"python", tag, script⟩]) ∧
    (∀ st out err, env.execCmd ⟨"python3", tag, script⟩ = .ok (st, out, err) →
      (st != 0 && isCmdNotFound err) = false →
      (runScriptWithFallback env tag script).2 = [.runScript ⟨"python3", tag, script⟩]) ∧
    (runScriptWithFallback env tag script).2.length ≤ 2 := by
  refine ⟨?_, ?_, ?_⟩
  · intro st out err hexec hcond
    cases h2 : env.execCmd ⟨"python", tag, script⟩ with
    | error e => simp [runScriptWithFallback, hexec, hcond, h2]
    | ok r2 => simp [runScriptWithFallback, hexec, hcond, h2]
  · intro st out err hexec hcond
    simp [runScriptWithFallback, hexec, hcond]
  · cases h1 : env.execCmd ⟨"python3", tag, script⟩ with
    | error e => simp [runScriptWithFallback, h1]
    | ok r =>
      obtain ⟨st, out, err⟩ := r
      by_cases hcond : (st != 0 && isCmdNotFound err) = true
      · cases h2 : env.execCmd ⟨"python", tag, script⟩ with
        | error e => simp [runScriptWithFallback, h1, hcond, h2]
        | ok r2 => simp [runScriptWithFallback, h1, hcond, h2]
      · have hcond2 : (st != 0 && isCmdNotFound err) = false := by
          simpa using hcond
        simp [runScriptWithFallback, h1, hcond2]

/-- Environment for the C8 witness: `python3` is missing, `python` works. -/
def c8Env : SshEnv where
  execCmd := fun cmd =>
    if cmd.interpreter = "python3" then .ok (127, "", "sh: python3: command not found")
    else .ok (0, "/tmp/query_result_ab12.csv.gz\n", "")
  download := fun _ _ => .ok ()
  localTempPath := "/tmp/local"
  metadataLen := fun _ => .ok 100
  parseStderrJson := fun _ => none
  decodeCsv := .ok (["a"], [])

/-- Witness for C8: a command-not-found failure of `python3` triggers the
single retry with `python` and the same script. -/
theorem c8_interpreter_fallback_witness :
    (runScriptWithFallback c8Env "T" "S").2 =
      [.runScript ⟨"python3", "T", "S"⟩, .runScript ⟨"python", "T", "S"⟩] :=
  (c8_interpreter_fallback c8Env "T" "S").1 127 "" "sh: python3: command not found"
    rfl (by decide)

/- ---------- C6 ---------- -/

/-- Claim C6, confirmed.  Field decoding tries `i64` parsing first, then
`f64` parsing, then falls back to the raw string, and an empty field
becomes null (src/query/mod.rs:793-811).  Determinism is inherent:
`inferValue` is a pure function of the field text. -/
theorem c6_type_inference_order :
    inferValue "" = .null ∧
    ∀ s : String, s ≠ "" →
      (∀ n, parseI64 s = some n → inferValue s = .int n) ∧
      (parseI64 s = none → ∀ q, parseF64 s = some (.finite q) → inferValue s = .float q) ∧
      (parseI64 s = none → parseF64 s = none → inferValue s = .str s) := by
  refine ⟨rfl, fun s hs => ⟨?_, ?_, ?_⟩⟩
  · intro n h
    simp [inferValue, hs, h]
  · intro h q hf
    simp [inferValue, hs, h, hf]
  · intro h hf
    simp [inferValue, hs, h, hf]

/-- Witness for C6: a field that is neither an integer nor a float stays a
string. -/
theorem c6_type_inference_order_witness : inferValue "abc" = .str "abc" :=
  (c6_type_inference_order.2 "abc" (by decide)).2.2 (by decide) (by decide)

/- ---------- C4 ---------- -/

/-- Environment for C4: the script run succeeds but its stdout is a bare
newline, so the trimmed temp file path is empty. -/
def c4Env : SshEnv where
  execCmd := fun _ => .ok (0, "\n", "")
  download := fun _ _ => .ok ()
  localTempPath := "/tmp/local"
  metadataLen := fun _ => .ok 20
  parseStderrJson := fun _ => none
  decodeCsv := .ok (["a"], [["1"]])

/-- Claim C4, corrected.  After a zero-exit run, the stdout trimmed of
leading and trailing whitespace is used as the remote path of the download
that is attempted unconditionally — there is no emptiness check
(src/query/mod.rs:735-747). -/
theorem c4_trimmed_path_always_downloaded (env : SshEnv) (tag script : String)
    (st : Int) (out err : String) (tr : List RemoteOp)
    (hrun : runScriptWithFallback env tag script = (.ok (st, out, err), tr))
    (hst : st = 0) :
    RemoteOp.downloadFile (rustTrim out) env.localTempPath ∈
      (execute_sql_query env tag script).2 := by
  subst hst
  unfold execute_sql_query
  rw [hrun]
  cases hd : env.download (rustTrim out) env.localTempPath with
  | error e => simp [hd]
  | ok u =>
    cases hm : env.metadataLen env.localTempPath with
    | error e => simp [hd, hm]
    | ok n =>
      cases hc : env.decodeCsv with
      | error e => simp [hd, hm, hc]
      | ok pr => simp [hd, hm, hc]

/-- Witness for C4: the all-whitespace stdout leads to a download attempt
with the empty remote path. -/
theorem c4_trimmed_path_always_downloaded_witness :
    RemoteOp.downloadFile "" "/tmp/local" ∈ (execute_sql_query c4Env "T" "S").2 := by
  have h := c4_trimmed_path_always_downloaded c4Env "T" "S" 0 "\n" ""
    [.runScript ⟨"python3", "T", "S"⟩] rfl rfl
  rw [show rustTrim "\n" = "" from rfl] at h
  exact h

/-- Counterexample to C4 as stated: with stdout `"\n"` (empty after
trimming) the call does not fail with a "no temp file path returned"
error — it downloads from the empty path and completes successfully. -/
theorem c4_counterexample :
    execute_sql_query c4Env "T" "S" =
      (.ok ([Jv.obj [("a", Jv.int 1)]], ["a"]),
       [.runScript ⟨"python3", "T", "S"⟩,
        .downloadFile "" "/tmp/local",
        .runCommand (rmfCommand "")]) := rfl

/- ---------- C1 ---------- -/

/-- Environment where the remote script exits non-zero (a script error). -/
def c1EnvScriptErr : SshEnv where
  execCmd := fun _ => .ok (1, "", "sqlite3.OperationalError: no such table: data_wide")
  download := fun _ _ => .ok ()
  localTempPath := "/tmp/local"
  metadataLen := fun _ => .ok 20
  parseStderrJson := fun _ => none
  decodeCsv := .ok (["a"], [])

/-- Environment where the script succeeds but the SFTP download fails. -/
def c1EnvDownErr : SshEnv where
  execCmd := fun _ => .ok (0, "/tmp/query_result_ab12.csv.gz\n", "")
  download := fun _ _ => .error "sftp: connection lost"
  localTempPath := "/tmp/local"
  metadataLen := fun _ => .ok 20
  parseStderrJson := fun _ => none
  decodeCsv := .ok (["a"], [])

/-- Environment of a fully successful run. -/
def c1EnvOk : SshEnv where
  execCmd := fun _ => .ok (0, "/tmp/query_result_ab12.csv.gz\n", "")
  download := fun _ _ => .ok ()
  localTempPath := "/tmp/local"
  metadataLen := fun _ => .ok 20
  parseStderrJson := fun _ => none
  decodeCsv := .ok (["a"], [])

/-- Does the trace contain a remote `rm -f` delete? -/
def hasRemoteDelete (tr : List RemoteOp) : Bool :=
  tr.any fun op =>
    match op with
    | .runCommand c => containsSub c "rm -f"
    | _ => false

/-- Claim C1 describes cleanup the code does not perform: on the
remote-script-error path and on the failed-download path
`execute_sql_query` returns without issuing any remote `rm -f`; the delete
is only issued after a successful download (src/query/mod.rs:725-755). -/
theorem c1_cleanup_only_after_successful_download :
    (execute_sql_query c1EnvScriptErr "T" "S" =
        (.error "SQL查询失败: sqlite3.OperationalError: no such table: data_wide",
         [.runScript ⟨"python3", "T", "S"⟩]) ∧
      hasRemoteDelete (execute_sql_query c1EnvScriptErr "T" "S").2 = false) ∧
    ((execute_sql_query c1EnvDownErr "T" "S").1 =
        .error "下载结果文件失败: sftp: connection lost" ∧
      hasRemoteDelete (execute_sql_query c1EnvDownErr "T" "S").2 = false) ∧
    hasRemoteDelete (execute_sql_query c1EnvOk "T" "S").2 = true :=
  ⟨⟨rfl, rfl⟩, ⟨rfl, rfl⟩, rfl⟩

/- ---------- C5 ---------- -/

theorem strLeB_trans (a b c : String) :
    strLeB a b = true → strLeB b c = true → strLeB a c = true := by
  intro h1 h2
  exact decide_eq_true (le_trans (of_decide_eq_true h1) (of_decide_eq_true h2))

theorem strLeB_total (a b : String) : (strLeB a b || strLeB b a) = true := by
  rcases le_total a b with h | h
  · simp [strLeB, h]
  · simp [strLeB, h]

theorem sortedDistinct_sorted (l : List String) :
    (sortedDistinct l).Pairwise (fun a b : String => a ≤ b) := by
  have h := List.sorted_mergeSort strLeB_trans strLeB_total l.dedup
  exact h.imp (fun hab => of_decide_eq_true hab)

theorem sortedDistinct_perm (l : List String) : (sortedDistinct l).Perm l.dedup :=
  List.mergeSort_perm l.dedup strLeB

/-- Claim C5, corrected.  The column list of the decoder is exactly the header
order; the `QueryResult` of a wide-table query keeps that order (it is
never re-sorted); only the CSV-export header computation applies the
wide-table order: `local_timestamp` first, the remaining distinct columns
ascending alphabetically. -/
theorem c5_column_order :
    (∀ headers records, (decodeRows headers records).2 = headers) ∧
    (∀ sqlExec (params : QueryParams) res cols, params.query_type = "wide_table" →
      res ≠ [] → sqlExec (wide_table_sql params) = .ok (res, cols) →
      execute_query sqlExec params = .ok ⟨cols, res, res.length⟩) ∧
    (∀ processed : List Obj,
      (wide_export_fieldnames processed).Perm (processed.flatMap keysOf).dedup ∧
      ("local_timestamp" ∈ processed.flatMap keysOf →
        ∃ rest, wide_export_fieldnames processed = "local_timestamp" :: rest ∧
          rest.Pairwise (fun a b : String => a ≤ b)) ∧
      ("local_timestamp" ∉ processed.flatMap keysOf →
        (wide_export_fieldnames processed).Pairwise (fun a b : String => a ≤ b))) := by
  refine ⟨fun _ _ => rfl, ?_, ?_⟩
  · intro sqlExec params res cols hqt hne hexec
    simp [execute_query, hqt, execute_wide_table_query, hexec, List.isEmpty_iff, hne]
  · intro processed
    set keys := processed.flatMap keysOf with hkeys
    have hperm : (sortedDistinct keys).Perm keys.dedup := sortedDistinct_perm keys
    have hsorted := sortedDistinct_sorted keys
    by_cases hmem : "local_timestamp" ∈ keys
    · have hmem2 : "local_timestamp" ∈ sortedDistinct keys :=
        hperm.mem_iff.mpr (List.mem_dedup.mpr hmem)
      have heq : wide_export_fieldnames processed =
          "local_timestamp" :: (sortedDistinct keys).erase "local_timestamp" := by
        simp [wide_export_fieldnames, hmem2]
      refine ⟨?_, ?_, ?_⟩
      · rw [heq]
        exact ((List.perm_cons_erase hmem2).symm.trans hperm)
      · intro _
        exact ⟨_, heq, List.Pairwise.sublist (List.erase_sublist _ _) hsorted⟩
      · intro hno
        exact absurd hmem hno
    · have hmem2 : "local_timestamp" ∉ sortedDistinct keys := fun h =>
        hmem (List.mem_dedup.mp (hperm.mem_iff.mp h))
      have heq : wide_export_fieldnames processed = sortedDistinct keys := by
        simp [wide_export_fieldnames, hmem2]
      exact ⟨heq ▸ hperm, fun h => absurd h hmem, fun _ => heq ▸ hsorted⟩

/-- Witness for C5 at a concrete processed row set: the export header is
`local_timestamp` followed by the remaining columns in sorted order. -/
theorem c5_column_order_witness :
    ∃ rest, wide_export_fieldnames
        [[("local_timestamp", Jv.int 1), ("2001_P", Jv.int 5)],
         [("1001_P", Jv.int 3), ("local_timestamp", Jv.int 2)]] =
        "local_timestamp" :: rest ∧
      rest.Pairwise (fun a b : String => a ≤ b) :=
  ((c5_column_order.2.2
    [[("local_timestamp", Jv.int 1), ("2001_P", Jv.int 5)],
     [("1001_P", Jv.int 3), ("local_timestamp", Jv.int 2)]]).2.1) (by decide)

/-- Counterexample to C5 as stated: the wide-table `QueryResult` column
list is the decoded header order, not `local_timestamp` first followed by
the rest alphabetically. -/
theorem c5_counterexample :
    execute_query
        (fun _ => .ok ([Jv.obj [("b_col", Jv.int 1)]], ["b_col", "local_timestamp", "a_col"]))
        ⟨"/data/a.db", 1, 2, "wide_table"⟩ =
      .ok ⟨["b_col", "local_timestamp", "a_col"], [Jv.obj [("b_col", Jv.int 1)]], 1⟩ ∧
    (["b_col", "local_timestamp", "a_col"] : List String) ≠
      ["local_timestamp", "a_col", "b_col"] :=
  ⟨rfl, by decide⟩

/- ---------- C7 ---------- -/

/-- The write a payload field attempts on the processed row: its mapped
output name with its value, or nothing when absent or null. -/
def payloadWrite (payload : Obj) (fieldMapping : List (String × String))
    (fk : String) : Option (String × Jv) :=
  match lookupKV payload fk with
  | some v => if v.isNull then none else some (mappedName fieldMapping fk, v)
  | none => none

theorem extractFields_eq_foldl (payload : Obj) (fm : List (String × String))
    (L : List String) (acc : Obj) :
    extractFields payload fm L acc =
      L.foldl (fun acc x =>
        match payloadWrite payload fm x with
        | some kv => insertKV acc kv.1 kv.2
        | none => acc) acc := by
  unfold extractFields
  congr 1
  funext acc fk
  cases h : lookupKV payload fk with
  | none => simp [payloadWrite, h]
  | some v =>
    by_cases hn : v.isNull = true
    · simp [payloadWrite, h, hn]
    · simp [payloadWrite, h, hn]

theorem lookup_extractFields (payload : Obj) (fm : List (String × String))
    (L : List String) (acc : Obj) (c : String) :
    lookupKV (extractFields payload fm L acc) c =
      ((L.filterMap (fun fk => (payloadWrite payload fm fk).bind
        (fun kv => if kv.1 == c then some kv.2 else none))).getLast?).or
        (lookupKV acc c) := by
  rw [extractFields_eq_foldl]
  exact lookup_foldl_insert _ L acc c

theorem filterMap_lookup_getLast (o : Obj) (c : String) (mtf : List String) :
    (mtf.filterMap (fun x => ((lookupKV o x).map (fun v => (x, v))).bind
      (fun kv => if kv.1 == c then some kv.2 else none))).getLast? =
      if c ∈ mtf then lookupKV o c else none := by
  induction mtf with
  | nil => simp
  | cons f fs ih =>
    cases hl : lookupKV o f with
    | none =>
      have hg : ((lookupKV o f).map (fun v => (f, v))).bind
          (fun kv => if (kv.1 == c) = true then some kv.2 else none) = none := by
        rw [hl]; rfl
      by_cases hfc : (f == c) = true
      · have hf : f = c := by simpa using hfc
        subst hf
        simp only [List.filterMap_cons, hg]
        rw [ih]
        simp [List.mem_cons, hl]
      · have hcf : ¬ c = f := fun h => ((by simpa using hfc : ¬ f = c)) h.symm
        simp only [List.filterMap_cons, hg]
        rw [ih]
        simp [List.mem_cons, hcf]
    | some v =>
      by_cases hfc : (f == c) = true
      · have hf : f = c := by simpa using hfc
        subst hf
        have hg : ((lookupKV o f).map (fun v => (f, v))).bind
            (fun kv => if (kv.1 == f) = true then some kv.2 else none) = some v := by
          rw [hl]; simp
        have hcons : ∀ (t : List Jv),
            ((v :: t).getLast?) = (t.getLast?).or (some v) := by
          intro t
          have h := getLast?_cons_or v t none
          simpa using h
        simp only [List.filterMap_cons, hg]
        rw [hcons, ih]
        by_cases hmem : f ∈ fs
        · simp [hmem, hl]
        · simp [hmem, hl, List.mem_cons]
      · have hfc2 : ¬ f = c := by simpa using hfc
        have hcf : ¬ c = f := fun h => hfc2 h.symm
        have hg : ((lookupKV o f).map (fun v => (f, v))).bind
            (fun kv => if (kv.1 == c) = true then some kv.2 else none) = none := by
          rw [hl]; simp [hfc2]
        simp only [List.filterMap_cons, hg]
        rw [ih]
        simp [List.mem_cons, hcf]

theorem lookup_mainRowOf (mtf : List String) (o : Obj) (c : String) :
    lookupKV (mainRowOf mtf o) c = if c ∈ mtf then lookupKV o c else none := by
  have heq : mainRowOf mtf o =
      mtf.foldl (fun acc x =>
        match (lookupKV o x).map (fun v => (x, v)) with
        | some kv => insertKV acc kv.1 kv.2
        | none => acc) [] := by
    unfold mainRowOf
    congr 1
    funext acc f
    cases h : lookupKV o f <;> simp [h]
  rw [heq, lookup_foldl_insert, filterMap_lookup_getLast]
  simp only [show lookupKV ([] : Obj) c = none from rfl, Option.or_none]

theorem filterMap_single {β : Type} (L : List String) (m : String → String)
    (h : String → Option β) (f : String) (hf : f ∈ L)
    (hnd : (L.map m).Nodup)
    (hnone : ∀ g ∈ L, g ≠ f → h g = none) :
    L.filterMap h = (h f).toList := by
  induction L with
  | nil => cases hf
  | cons a t ih =>
    rcases List.mem_cons.mp hf with rfl | hft
    · have ht : ∀ g ∈ t, h g = none := by
        intro g hg
        by_cases hgf : g = f
        · subst hgf
          exact absurd (List.mem_map_of_mem m hg) (List.nodup_cons.mp hnd).1
        · exact hnone g (List.mem_cons_of_mem _ hg) hgf
      have ht2 : t.filterMap h = [] := by
        simp [List.filterMap_eq_nil_iff]
        exact ht
      cases hh : h f with
      | none => simp [List.filterMap_cons, hh, ht2]
      | some b => simp [List.filterMap_cons, hh, ht2]
    · have haf : a ≠ f := by
        intro he
        subst he
        exact absurd (List.mem_map_of_mem m hft) (List.nodup_cons.mp hnd).1
      have ha : h a = none := hnone a (List.mem_cons_self a t) haf
      simp only [List.filterMap_cons, ha]
      exact ih hft (List.nodup_cons.mp hnd).2
        (fun g hg hgf => hnone g (List.mem_cons_of_mem _ hg) hgf)

theorem payloadWrite_bind_eq_none (p : Obj) (fm : List (String × String))
    (c g : String) (hne : ¬ mappedName fm g = c) :
    (payloadWrite p fm g).bind
      (fun kv => if kv.1 == c then some kv.2 else none) = none := by
  unfold payloadWrite
  cases h : lookupKV p g with
  | none => rfl
  | some v =>
    by_cases hn : v.isNull = true
    · simp [hn]
    · simp [hn, hne]

/-- Claim C7, corrected.  The extraction list is looked up by the
(upper-cased) device type of the row, falling back to the `default` entry when the
specific type has no entry; each listed field present and non-null in the
payload is emitted under its mapped output name — with no device prefix —
and null-valued fields are omitted. -/
theorem c7_payload_extraction :
    (∀ (config : ExportConfig) (dt : String) (l : List String),
      lookupA config.extract_from_payload dt = some l →
      extractListFor config dt = l) ∧
    (∀ (config : ExportConfig) (dt : String),
      lookupA config.extract_from_payload dt = none →
      extractListFor config dt = (lookupA config.extract_from_payload "default").getD []) ∧
    (∀ (parseJson : String → Option Obj) (config : ExportConfig)
        (o p : Obj) (L : List String),
      lookupKV o "payload_json" = some (.obj p) → p ≠ [] →
      extractListFor config (deviceTypeOf o) = L → L ≠ [] →
      (L.map (mappedName config.field_name_mapping)).Nodup →
      filter_and_extract_fields parseJson [.obj o] config =
        [processRow parseJson config o] ∧
      (∀ f v, f ∈ L → lookupKV p f = some v → v.isNull = false →
        lookupKV (processRow parseJson config o)
          (mappedName config.field_name_mapping f) = some v) ∧
      (∀ f, f ∈ L → (lookupKV p f = none ∨ lookupKV p f = some .null) →
        mappedName config.field_name_mapping f ∉ config.main_table_fields →
        lookupKV (processRow parseJson config o)
          (mappedName config.field_name_mapping f) = none)) := by
  refine ⟨?_, ?_, ?_⟩
  · intro config dt l h
    simp [extractListFor, h]
  · intro config dt h
    simp [extractListFor, h, Option.orElse]
  · intro parseJson config o p L hpj hpne hL hLne hnd
    have hpo : payloadObjOf parseJson (.obj p) = some p := by
      simp [payloadObjOf, List.isEmpty_iff, hpne]
    have hpr : processRow parseJson config o =
        extractFields p config.field_name_mapping L
          (mainRowOf config.main_table_fields o) := by
      unfold processRow
      rw [hpj]
      simp only [Jv.isNull, Bool.false_eq_true, if_false, hpo, hL]
      simp [List.isEmpty_iff, hLne]
    refine ⟨by simp [filter_and_extract_fields], ?_, ?_⟩
    · intro f v hfL hpf hnn
      have hnone : ∀ g ∈ L, g ≠ f → (payloadWrite p config.field_name_mapping g).bind
          (fun kv => if kv.1 == mappedName config.field_name_mapping f then
            some kv.2 else none) = none := by
        intro g hg hgf
        apply payloadWrite_bind_eq_none
        intro hme
        exact hgf (List.inj_on_of_nodup_map hnd hg hfL hme)
      have hhf : (payloadWrite p config.field_name_mapping f).bind
          (fun kv => if kv.1 == mappedName config.field_name_mapping f then
            some kv.2 else none) = some v := by
        simp [payloadWrite, hpf, hnn]
      rw [hpr, lookup_extractFields,
        filterMap_single L (mappedName config.field_name_mapping) _ f hfL hnd hnone, hhf]
      rfl
    · intro f hfL hnull hnotmain
      have hnone : ∀ g ∈ L, g ≠ f → (payloadWrite p config.field_name_mapping g).bind
          (fun kv => if kv.1 == mappedName config.field_name_mapping f then
            some kv.2 else none) = none := by
        intro g hg hgf
        apply payloadWrite_bind_eq_none
        intro hme
        exact hgf (List.inj_on_of_nodup_map hnd hg hfL hme)
      have hhf : (payloadWrite p config.field_name_mapping f).bind
          (fun kv => if kv.1 == mappedName config.field_name_mapping f then
            some kv.2 else none) = none := by
        rcases hnull with h | h <;> simp [payloadWrite, h, Jv.isNull]
      rw [hpr, lookup_extractFields,
        filterMap_single L (mappedName config.field_name_mapping) _ f hfL hnd hnone, hhf]
      simp [lookup_mainRowOf, hnotmain]

/-- Configuration for the C7 examples: two main fields, a `default`
extraction list `["x", "y"]`, no name mapping. -/
def c7Config : ExportConfig :=
  ⟨["device_sn", "device_type"], [("default", ["x", "y"])], []⟩

/-- Row for the C7 examples: device `dev1` with payload
`{"x": 1, "y": null}`. -/
def c7RowObj : Obj :=
  [("device_sn", .str "dev1"), ("device_type", .str "meter"),
   ("payload_json", .obj [("x", .int 1), ("y", .null)])]

/-- Witness for C7: field `x` is emitted as column `x` with value 1, and
the null-valued `y` is omitted. -/
theorem c7_payload_extraction_witness :
    lookupKV (processRow (fun _ => none) c7Config c7RowObj) "x" = some (.int 1) ∧
    lookupKV (processRow (fun _ => none) c7Config c7RowObj) "y" = none := by
  have h := c7_payload_extraction.2.2 (fun _ => none) c7Config c7RowObj
    [("x", Jv.int 1), ("y", Jv.null)] ["x", "y"] rfl (by simp) rfl (by simp) (by decide)
  exact ⟨h.2.1 "x" (.int 1) (by decide) rfl rfl,
    h.2.2 "y" (by decide) (Or.inr rfl) (by decide)⟩

/-- Counterexample to C7 as stated: the emitted column for payload field
`x` of device `dev1` is plain `x`, not the device-prefixed `dev1_x`. -/
theorem c7_counterexample :
    filter_and_extract_fields (fun _ => none) [.obj c7RowObj] c7Config =
      [[("device_sn", Jv.str "dev1"), ("device_type", Jv.str "meter"),
        ("x", Jv.int 1)]] ∧
    lookupKV [("device_sn", Jv.str "dev1"), ("device_type", Jv.str "meter"),
        ("x", Jv.int 1)] "dev1_x" = none :=
  ⟨rfl, rfl⟩

end RemoteTool
